import Mathlib

/-
Shallow embedding of the sleepy_checkr fatigue-scoring core.

Source files embedded:
  src/fatigue-detector.ts  (calculateEAR, distance, EYE_LANDMARKS)
  src/perclos-detector.ts  (PERCLOSDetector: update, getScore,
                            calculatePERCLOS, calculateClosurePercentage,
                            getRecentEARs, cleanOldData)

Modelling conventions:
  - JavaScript numbers are modelled by JSNum: NaN, +Infinity, -Infinity, or a
    finite value carried as an exact rational.  The special-value propagation
    rules of IEEE-754 / JavaScript (NaN comparisons are false, x/0 with x > 0
    is +Infinity, 0/0 is NaN, Math.max returns NaN on a NaN argument, and so
    on) are modelled exactly; finite arithmetic is idealized as exact rational
    arithmetic.  Negative zero never arises in the embedded computations.
  - Timestamps (Date.now() values) are integers in practice and are modelled
    as members of ZZ; the Date.now() reads inside one getScore call are
    modelled as a single `now` argument, and update takes the pair
    (ratio, now) as the state-transition input.
  - The eye-landmark geometry of fatigue-detector.ts uses Math.sqrt and is
    modelled over the real numbers.
  - The details string of a FatigueScore is a template literal whose only
    data is the number Math.round(perclos * 10) / 10; the embedding keeps
    that numeric payload (detailPerclos) and does not model the string
    formatting itself.
-/

namespace SleepyCheckr

/-- Model of a JavaScript number: NaN, an infinity, or a finite value
(idealized as an exact rational). -/
inductive JSNum where
  | nan : JSNum
  | posInf : JSNum
  | negInf : JSNum
  | fin : ℚ → JSNum
deriving DecidableEq

/-- JavaScript unary minus. -/
def jneg : JSNum → JSNum
  | .nan => .nan
  | .posInf => .negInf
  | .negInf => .posInf
  | .fin a => .fin (-a)

/-- JavaScript addition. -/
def jadd : JSNum → JSNum → JSNum
  | .nan, _ => .nan
  | _, .nan => .nan
  | .posInf, .negInf => .nan
  | .negInf, .posInf => .nan
  | .posInf, _ => .posInf
  | _, .posInf => .posInf
  | .negInf, _ => .negInf
  | _, .negInf => .negInf
  | .fin a, .fin b => .fin (a + b)

/-- JavaScript subtraction, a - b = a + (-b). -/
def jsub (a b : JSNum) : JSNum := jadd a (jneg b)

/-- JavaScript multiplication (Infinity * 0 is NaN). -/
def jmul : JSNum → JSNum → JSNum
  | .nan, _ => .nan
  | _, .nan => .nan
  | .posInf, .posInf => .posInf
  | .posInf, .negInf => .negInf
  | .negInf, .posInf => .negInf
  | .negInf, .negInf => .posInf
  | .posInf, .fin b => if b = 0 then .nan else if 0 < b then .posInf else .negInf
  | .fin a, .posInf => if a = 0 then .nan else if 0 < a then .posInf else .negInf
  | .negInf, .fin b => if b = 0 then .nan else if 0 < b then .negInf else .posInf
  | .fin a, .negInf => if a = 0 then .nan else if 0 < a then .negInf else .posInf
  | .fin a, .fin b => .fin (a * b)

/-- JavaScript division: 0/0 is NaN, x/0 with x positive is +Infinity and
with x negative is -Infinity (the positive zero of the embedded programs),
Infinity/Infinity is NaN, finite/Infinity is 0. -/
def jdiv : JSNum → JSNum → JSNum
  | .nan, _ => .nan
  | _, .nan => .nan
  | .posInf, .posInf => .nan
  | .posInf, .negInf => .nan
  | .negInf, .posInf => .nan
  | .negInf, .negInf => .nan
  | .posInf, .fin b => if 0 ≤ b then .posInf else .negInf
  | .negInf, .fin b => if 0 ≤ b then .negInf else .posInf
  | .fin _, .posInf => .fin 0
  | .fin _, .negInf => .fin 0
  | .fin a, .fin b =>
      if b = 0 then (if a = 0 then .nan else if 0 < a then .posInf else .negInf)
      else .fin (a / b)

/-- JavaScript strict less-than: every comparison with NaN is false. -/
def jlt : JSNum → JSNum → Bool
  | .nan, _ => false
  | _, .nan => false
  | .posInf, _ => false
  | _, .posInf => true
  | _, .negInf => false
  | .negInf, _ => true
  | .fin a, .fin b => decide (a < b)

/-- JavaScript greater-or-equal: every comparison with NaN is false. -/
def jge : JSNum → JSNum → Bool
  | .nan, _ => false
  | _, .nan => false
  | .posInf, _ => true
  | _, .posInf => false
  | _, .negInf => true
  | .negInf, _ => false
  | .fin a, .fin b => decide (b ≤ a)

/-- JavaScript Math.max of two arguments (NaN if either argument is NaN). -/
def jmax : JSNum → JSNum → JSNum
  | .nan, _ => .nan
  | _, .nan => .nan
  | a, b => if jlt a b then b else a

/-- JavaScript Math.round: round half toward positive infinity, i.e. the
floor of x + 1/2 on finite values; NaN and the infinities are fixed. -/
def jround : JSNum → JSNum
  | .nan => .nan
  | .posInf => .posInf
  | .negInf => .negInf
  | .fin q => .fin ((⌊q + 1/2⌋ : ℤ) : ℚ)

theorem jadd_fin (a b : ℚ) : jadd (.fin a) (.fin b) = .fin (a + b) := rfl

theorem jsub_fin (a b : ℚ) : jsub (.fin a) (.fin b) = .fin (a - b) := by
  simp [jsub, jneg, jadd, sub_eq_add_neg]

theorem jmul_fin (a b : ℚ) : jmul (.fin a) (.fin b) = .fin (a * b) := rfl

theorem jlt_fin (a b : ℚ) : jlt (.fin a) (.fin b) = decide (a < b) := rfl

theorem jge_fin (a b : ℚ) : jge (.fin a) (.fin b) = decide (b ≤ a) := rfl

theorem jround_fin (q : ℚ) : jround (.fin q) = .fin ((⌊q + 1/2⌋ : ℤ) : ℚ) := rfl

theorem jdiv_fin (a b : ℚ) (hb : b ≠ 0) :
    jdiv (.fin a) (.fin b) = .fin (a / b) := by
  simp [jdiv, hb]

theorem jmax_fin (a b : ℚ) : jmax (.fin a) (.fin b) = .fin (max a b) := by
  rcases lt_or_le a b with h | h
  · simp [jmax, jlt_fin, h, max_eq_right h.le]
  · simp [jmax, jlt_fin, not_lt.mpr h, max_eq_left h]

/-! ## perclos-detector.ts: data model and constants -/

/-- One element of PERCLOSDetector.earHistory: interface EARRecord
(perclos-detector.ts lines 9-12). -/
structure EARRecord where
  timestamp : ℤ
  ear : JSNum
deriving DecidableEq

/-- WINDOW_MS = 60000 (one minute), perclos-detector.ts line 30. -/
def WINDOW_MS : ℤ := 60000

/-- EAR_THRESHOLD = 0.2, perclos-detector.ts line 31. -/
def EAR_THRESHOLD : ℚ := 0.2

/-- NORMAL_PERCLOS = 15, perclos-detector.ts line 32. -/
def NORMAL_PERCLOS : ℚ := 15

/-- FATIGUE_PERCLOS = 20, perclos-detector.ts line 33. -/
def FATIGUE_PERCLOS : ℚ := 20

/-- The mutable state of a PERCLOSDetector: the retained sample history, the
construction time startTime, and lastUpdateTime (written by update, never
read by any computation). -/
structure PERCLOSDetector where
  earHistory : List EARRecord
  startTime : ℤ
  lastUpdateTime : ℤ
deriving DecidableEq

/-- A freshly constructed PERCLOSDetector at time t0: empty history,
startTime = lastUpdateTime = Date.now() = t0. -/
def mkDetector (t0 : ℤ) : PERCLOSDetector :=
  { earHistory := [], startTime := t0, lastUpdateTime := t0 }

/-- cleanOldData (perclos-detector.ts lines 159-162): retain exactly the
records with timestamp greater than now - WINDOW_MS * 2. -/
def cleanOldData (history : List EARRecord) (now : ℤ) : List EARRecord :=
  history.filter (fun record => now - WINDOW_MS * 2 < record.timestamp)

/-- update (perclos-detector.ts lines 41-61), with the per-frame average EAR
already computed and Date.now() passed as `now`: push the new record, set
lastUpdateTime, then prune via cleanOldData. -/
def update (d : PERCLOSDetector) (avgEar : JSNum) (now : ℤ) : PERCLOSDetector :=
  { earHistory := cleanOldData (d.earHistory ++ [⟨now, avgEar⟩]) now,
    startTime := d.startTime,
    lastUpdateTime := now }

/-- getRecentEARs (perclos-detector.ts lines 154-157): the history records
with timestamp greater than now - WINDOW_MS. -/
def getRecentEARs (d : PERCLOSDetector) (now : ℤ) : List EARRecord :=
  d.earHistory.filter (fun record => now - WINDOW_MS < record.timestamp)

/-- Timestamp of the record at index i (the loop in
calculateClosurePercentage only reads indices below the length, so the
default record is never observed). -/
def tsD (records : List EARRecord) (i : ℕ) : ℤ :=
  (records.getD i ⟨0, JSNum.nan⟩).timestamp

/-- EAR value of the record at index i. -/
def earD (records : List EARRecord) (i : ℕ) : JSNum :=
  (records.getD i ⟨0, JSNum.nan⟩).ear

/-- The frameDuration computed for loop index i in
calculateClosurePercentage (perclos-detector.ts lines 126-139): the delta
to the next record when one exists; otherwise, for the final record, the
delta to the previous record when one exists, else the 33 ms fallback. -/
def frameDuration (records : List EARRecord) (i : ℕ) : ℤ :=
  if i + 1 < records.length then tsD records (i + 1) - tsD records i
  else if 0 < i then tsD records i - tsD records (i - 1)
  else 33

/-- The closure test of perclos-detector.ts line 142: record.ear <
EAR_THRESHOLD under JavaScript comparison (false for NaN and +Infinity). -/
def isClosed (ear : JSNum) : Bool :=
  jlt ear (JSNum.fin EAR_THRESHOLD)

/-- The closedTimeMs accumulation loop of calculateClosurePercentage
(perclos-detector.ts lines 121-145), as a fold over the loop indices. -/
def closedTimeMs (records : List EARRecord) : ℤ :=
  (List.range records.length).foldl
    (fun acc i => if isClosed (earD records i) then acc + frameDuration records i else acc) 0

/-- The closed-time total described sample-by-sample: each index
contributes its frameDuration exactly when its ear is below the
threshold.  Used to reason about closedTimeMs termwise. -/
def specClosedTime (records : List EARRecord) : ℤ :=
  ((List.range records.length).map
    (fun i => if isClosed (earD records i) then frameDuration records i else 0)).sum

/-- calculateClosurePercentage (perclos-detector.ts lines 118-152):
(closedTimeMs / windowMs) * 100 under JavaScript arithmetic, 0 for an
empty record list. -/
def calculateClosurePercentage (records : List EARRecord) (windowMs : ℤ) : JSNum :=
  if records = [] then JSNum.fin 0
  else jmul (jdiv (JSNum.fin ((closedTimeMs records : ℤ) : ℚ)) (JSNum.fin ((windowMs : ℤ) : ℚ)))
    (JSNum.fin 100)

/-- calculatePERCLOS (perclos-detector.ts lines 94-116): 0 with no recent
records; otherwise the closure percentage over min(now - startTime,
WINDOW_MS), with the under-30-seconds branch kept verbatim (both branches
of the source make the identical call). -/
def calculatePERCLOS (d : PERCLOSDetector) (now : ℤ) : JSNum :=
  if getRecentEARs d now = [] then JSNum.fin 0
  else if min (now - d.startTime) WINDOW_MS < 30000 then
    calculateClosurePercentage (getRecentEARs d now) (min (now - d.startTime) WINDOW_MS)
  else
    calculateClosurePercentage (getRecentEARs d now) (min (now - d.startTime) WINDOW_MS)

/-- The result type FatigueScore (fatigue-detector.ts lines 3-7).  The
details string is the template literal PERCLOS .. %; its numeric payload
Math.round(perclos * 10) / 10 is kept as detailPerclos. -/
structure FatigueScore where
  score : JSNum
  level : String
  detailPerclos : JSNum
deriving DecidableEq

/-- The normal-branch score formula 100 - perclos * (20 / 15)
(perclos-detector.ts line 84). -/
def normalScore (perclos : JSNum) : JSNum :=
  jsub (JSNum.fin 100) (jmul perclos (JSNum.fin (20 / 15)))

/-- The mild-fatigue-branch score formula 100 - (perclos - NORMAL_PERCLOS) * 4
(perclos-detector.ts line 79). -/
def mildScore (perclos : JSNum) : JSNum :=
  jsub (JSNum.fin 100) (jmul (jsub perclos (JSNum.fin NORMAL_PERCLOS)) (JSNum.fin 4))

/-- The fatigue-branch score formula
Math.max(0, 100 - (perclos - FATIGUE_PERCLOS) * 4)
(perclos-detector.ts line 74). -/
def fatigueScore (perclos : JSNum) : JSNum :=
  jmax (JSNum.fin 0) (jsub (JSNum.fin 100) (jmul (jsub perclos (JSNum.fin FATIGUE_PERCLOS)) (JSNum.fin 4)))

/-- The branch structure of getScore (perclos-detector.ts lines 70-91)
applied to an already-computed PERCLOS value: the fatigue branch when
perclos >= FATIGUE_PERCLOS, the mild branch when perclos >=
NORMAL_PERCLOS, else the normal branch; the score is rounded and the
detail percentage is rounded to one decimal. -/
def scoreLevel (perclos : JSNum) : FatigueScore :=
  if jge perclos (JSNum.fin FATIGUE_PERCLOS) then
    { score := jround (fatigueScore perclos), level := "疲労",
      detailPerclos := jdiv (jround (jmul perclos (JSNum.fin 10))) (JSNum.fin 10) }
  else if jge perclos (JSNum.fin NORMAL_PERCLOS) then
    { score := jround (mildScore perclos), level := "やや疲労",
      detailPerclos := jdiv (jround (jmul perclos (JSNum.fin 10))) (JSNum.fin 10) }
  else
    { score := jround (normalScore perclos), level := "正常",
      detailPerclos := jdiv (jround (jmul perclos (JSNum.fin 10))) (JSNum.fin 10) }

/-- getScore (perclos-detector.ts lines 63-92) at query time now. -/
def getScore (d : PERCLOSDetector) (now : ℤ) : FatigueScore :=
  scoreLevel (calculatePERCLOS d now)

/-- Apply a sequence of update calls, each given as (avgEar, now). -/
def runUpdates (d : PERCLOSDetector) : List (JSNum × ℤ) → PERCLOSDetector
  | [] => d
  | (r, t) :: rest => runUpdates (update d r t) rest

/-- The timestamps of an update trace are non-decreasing starting from t
(the reachable-call pattern: Date.now() never decreases after
construction). -/
def validFrom (t : ℤ) : List (JSNum × ℤ) → Prop
  | [] => True
  | (_, t1) :: rest => t ≤ t1 ∧ validFrom t1 rest

/-- The timestamp of the last update of a trace, or t for the empty
trace. -/
def lastTime (t : ℤ) : List (JSNum × ℤ) → ℤ
  | [] => t
  | (_, t1) :: rest => lastTime t1 rest

/-- Record order by timestamp. -/
def tsLE (a b : EARRecord) : Prop := a.timestamp ≤ b.timestamp

/-- The history is sorted by timestamp. -/
def histSorted (d : PERCLOSDetector) : Prop :=
  d.earHistory.Pairwise tsLE

/-- Every history timestamp is at most t. -/
def histBounded (d : PERCLOSDetector) (t : ℤ) : Prop :=
  ∀ r ∈ d.earHistory, r.timestamp ≤ t

/-! ## Structural lemmas about the embedded operations -/

theorem getD_append_split {α : Type} (l1 l2 : List α) (d : α) (i : ℕ) :
    (l1 ++ l2).getD i d = if i < l1.length then l1.getD i d else l2.getD (i - l1.length) d := by
  simp only [List.getD_eq_getElem?_getD, List.getElem?_append]
  split <;> rfl

theorem tsD_eq_getElem (records : List EARRecord) (i : ℕ) (h : i < records.length) :
    tsD records i = records[i].timestamp := by
  simp [tsD, List.getD_eq_getElem?_getD, List.getElem?_eq_getElem h]

theorem earD_eq_getElem (records : List EARRecord) (i : ℕ) (h : i < records.length) :
    earD records i = records[i].ear := by
  simp [earD, List.getD_eq_getElem?_getD, List.getElem?_eq_getElem h]

theorem foldl_if_add (f : ℕ → ℤ) (c : ℕ → Bool) (l : List ℕ) :
    ∀ a : ℤ, l.foldl (fun acc i => if c i then acc + f i else acc) a
      = a + (l.map (fun i => if c i then f i else 0)).sum := by
  induction l with
  | nil => intro a; simp
  | cons x xs ih =>
      intro a
      simp only [List.foldl_cons, List.map_cons, List.sum_cons, ih]
      by_cases hx : c x = true
      · simp [hx]; ring
      · simp [hx]

/-- The closedTimeMs loop equals the per-sample sum of contributions. -/
theorem closedTimeMs_eq_spec (records : List EARRecord) :
    closedTimeMs records = specClosedTime records := by
  rw [closedTimeMs, specClosedTime,
    foldl_if_add (frameDuration records) (fun i => isClosed (earD records i))]
  simp

/-- With a time-sorted record list, every frame duration is non-negative. -/
theorem frameDuration_nonneg (records : List EARRecord)
    (hs : records.Pairwise tsLE) (i : ℕ) (hi : i < records.length) :
    0 ≤ frameDuration records i := by
  rw [frameDuration]
  split
  · next h1 =>
      rw [tsD_eq_getElem _ _ h1, tsD_eq_getElem _ _ hi]
      have := List.pairwise_iff_getElem.mp hs i (i + 1) hi h1 (Nat.lt_succ_self i)
      unfold tsLE at this
      omega
  · split
    · next h2 =>
        rw [tsD_eq_getElem _ _ hi, tsD_eq_getElem _ _ (Nat.lt_of_le_of_lt (Nat.sub_le i 1) hi)]
        have := List.pairwise_iff_getElem.mp hs (i - 1) i
          (Nat.lt_of_le_of_lt (Nat.sub_le i 1) hi) hi (by omega)
        unfold tsLE at this
        omega
    · norm_num

/-- With a time-sorted record list, the accumulated closed time is
non-negative. -/
theorem closedTimeMs_nonneg (records : List EARRecord) (hs : records.Pairwise tsLE) :
    0 ≤ closedTimeMs records := by
  rw [closedTimeMs_eq_spec, specClosedTime]
  apply List.sum_nonneg
  intro x hx
  obtain ⟨i, hi, rfl⟩ := List.mem_map.mp hx
  rw [List.mem_range] at hi
  split
  · exact frameDuration_nonneg records hs i hi
  · exact le_refl 0

/-- update preserves time-sortedness of the history when the new timestamp
is at least every timestamp already present. -/
theorem update_sorted (d : PERCLOSDetector) (r : JSNum) (now : ℤ)
    (hs : histSorted d) (hb : histBounded d now) : histSorted (update d r now) := by
  unfold histSorted update cleanOldData
  apply List.Pairwise.filter
  rw [List.pairwise_append]
  refine ⟨hs, List.pairwise_singleton tsLE _, ?_⟩
  intro a ha b hbmem
  rw [List.mem_singleton] at hbmem
  subst hbmem
  exact hb a ha

/-- update bounds every retained timestamp by the update time. -/
theorem update_bounded (d : PERCLOSDetector) (r : JSNum) (now t : ℤ)
    (hb : histBounded d t) (h : t ≤ now) : histBounded (update d r now) now := by
  intro x hx
  unfold update cleanOldData at hx
  rw [List.mem_filter, List.mem_append] at hx
  rcases hx.1 with h1 | h1
  · exact (hb x h1).trans h
  · rw [List.mem_singleton] at h1
    subst h1
    exact le_refl now

/-- A trace of non-decreasing update times keeps the history time-sorted
and bounded by the last update time. -/
theorem runUpdates_inv (ups : List (JSNum × ℤ)) :
    ∀ (d : PERCLOSDetector) (t : ℤ), histSorted d → histBounded d t → validFrom t ups →
      histSorted (runUpdates d ups) ∧ histBounded (runUpdates d ups) (lastTime t ups) := by
  induction ups with
  | nil => intro d t hs hb _; exact ⟨hs, hb⟩
  | cons p rest ih =>
      obtain ⟨r, t1⟩ := p
      intro d t hs hb hv
      obtain ⟨h1, h2⟩ := hv
      have hb1 : histBounded d t1 := fun x hx => (hb x hx).trans h1
      exact ih (update d r t1) t1 (update_sorted d r t1 hs hb1)
        (update_bounded d r t1 t hb h1) h2

/-- runUpdates never changes the construction time. -/
theorem runUpdates_startTime (ups : List (JSNum × ℤ)) :
    ∀ d : PERCLOSDetector, (runUpdates d ups).startTime = d.startTime := by
  induction ups with
  | nil => intro d; rfl
  | cons p rest ih =>
      obtain ⟨r, t1⟩ := p
      intro d
      rw [runUpdates, ih (update d r t1)]
      rfl

/-- With recent samples present and a non-zero effective window, the
PERCLOS value is the finite rational closedTime / window * 100. -/
theorem calculatePERCLOS_fin (d : PERCLOSDetector) (now : ℤ)
    (hre : getRecentEARs d now ≠ [])
    (hw : min (now - d.startTime) WINDOW_MS ≠ 0) :
    calculatePERCLOS d now =
      JSNum.fin ((closedTimeMs (getRecentEARs d now) : ℚ)
        / ((min (now - d.startTime) WINDOW_MS : ℤ) : ℚ) * 100) := by
  have hcast : ((min (now - d.startTime) WINDOW_MS : ℤ) : ℚ) ≠ 0 :=
    Int.cast_ne_zero.mpr hw
  have hcc : calculateClosurePercentage (getRecentEARs d now)
      (min (now - d.startTime) WINDOW_MS) =
      JSNum.fin ((closedTimeMs (getRecentEARs d now) : ℚ)
        / ((min (now - d.startTime) WINDOW_MS : ℤ) : ℚ) * 100) := by
    rw [calculateClosurePercentage, if_neg hre, jdiv_fin _ _ hcast, jmul_fin]
  rw [calculatePERCLOS, if_neg hre]
  split <;> exact hcc

theorem floor_half_bounds (q : ℚ) (h0 : 0 ≤ q) (h1 : q ≤ 100) :
    0 ≤ ⌊q + 1/2⌋ ∧ ⌊q + 1/2⌋ ≤ 100 := by
  constructor
  · exact Int.le_floor.mpr (by push_cast; linarith)
  · calc ⌊q + 1/2⌋ ≤ ⌊(100 : ℚ) + 1/2⌋ := Int.floor_le_floor (by linarith)
      _ = 100 := by norm_num [Int.floor_eq_iff]

/-- The branch mapping of getScore sends every non-negative finite PERCLOS
value to a finite integer score between 0 and 100. -/
theorem scoreLevel_range (p : ℚ) (hp : 0 ≤ p) :
    ∃ n : ℤ, (scoreLevel (JSNum.fin p)).score = JSNum.fin (n : ℚ) ∧ 0 ≤ n ∧ n ≤ 100 := by
  rw [scoreLevel]
  by_cases h20 : FATIGUE_PERCLOS ≤ p
  · rw [if_pos (by simp [jge_fin, h20])]
    have hfs : fatigueScore (JSNum.fin p)
        = JSNum.fin (max 0 (100 - (p - FATIGUE_PERCLOS) * 4)) := by
      rw [fatigueScore, jsub_fin, jmul_fin, jsub_fin, jmax_fin]
    rw [hfs, jround_fin]
    refine ⟨⌊max 0 (100 - (p - FATIGUE_PERCLOS) * 4) + 1/2⌋, rfl, ?_⟩
    exact floor_half_bounds _ (le_max_left 0 _)
      (max_le (by norm_num) (by unfold FATIGUE_PERCLOS at h20 ⊢; linarith))
  · rw [if_neg (by simp [jge_fin, h20])]
    by_cases h15 : NORMAL_PERCLOS ≤ p
    · rw [if_pos (by simp [jge_fin, h15])]
      have hms : mildScore (JSNum.fin p)
          = JSNum.fin (100 - (p - NORMAL_PERCLOS) * 4) := by
        rw [mildScore, jsub_fin, jmul_fin, jsub_fin]
      rw [hms, jround_fin]
      refine ⟨⌊(100 - (p - NORMAL_PERCLOS) * 4) + 1/2⌋, rfl, ?_⟩
      unfold NORMAL_PERCLOS at h15
      unfold FATIGUE_PERCLOS at h20
      exact floor_half_bounds _ (by unfold NORMAL_PERCLOS; linarith)
        (by unfold NORMAL_PERCLOS; linarith)
    · rw [if_neg (by simp [jge_fin, h15])]
      have hns : normalScore (JSNum.fin p)
          = JSNum.fin (100 - p * (20 / 15)) := by
        rw [normalScore, jmul_fin, jsub_fin]
      rw [hns, jround_fin]
      refine ⟨⌊(100 - p * (20 / 15)) + 1/2⌋, rfl, ?_⟩
      unfold NORMAL_PERCLOS at h15
      exact floor_half_bounds _ (by linarith) (by linarith)

/-- Two record lists with identical timestamp sequences index to identical
timestamps. -/
theorem tsD_map_eq {l1 l2 : List EARRecord}
    (h : l1.map EARRecord.timestamp = l2.map EARRecord.timestamp) (i : ℕ) :
    tsD l1 i = tsD l2 i := by
  have hlen : l1.length = l2.length := by
    simpa using congrArg List.length h
  rcases lt_or_le i l1.length with hi | hi
  · have hi2 : i < l2.length := hlen ▸ hi
    rw [tsD_eq_getElem _ _ hi, tsD_eq_getElem _ _ hi2]
    have h1 : (l1.map EARRecord.timestamp)[i]? = (l2.map EARRecord.timestamp)[i]? := by
      rw [h]
    rw [List.getElem?_eq_getElem (by simpa using hi),
      List.getElem?_eq_getElem (by simpa using hi2)] at h1
    simpa [List.getElem_map] using h1
  · rw [tsD, tsD, List.getD_eq_default _ _ hi, List.getD_eq_default _ _ (hlen ▸ hi)]

/-- Frame durations depend only on the timestamp sequence. -/
theorem frameDuration_map_eq {l1 l2 : List EARRecord}
    (h : l1.map EARRecord.timestamp = l2.map EARRecord.timestamp) (i : ℕ) :
    frameDuration l1 i = frameDuration l2 i := by
  have hlen : l1.length = l2.length := by
    simpa using congrArg List.length h
  rw [frameDuration, frameDuration, hlen,
    tsD_map_eq h, tsD_map_eq h, tsD_map_eq h]

/-- Closed-time monotonicity: with the same timestamps, a time-sorted list
whose closed samples include those of another list accumulates at least as
much closed time. -/
theorem closedTimeMs_le (l1 l2 : List EARRecord)
    (hts : l1.map EARRecord.timestamp = l2.map EARRecord.timestamp)
    (hcl : ∀ i, isClosed (earD l1 i) = true → isClosed (earD l2 i) = true)
    (hsort : l2.Pairwise tsLE) :
    closedTimeMs l1 ≤ closedTimeMs l2 := by
  have hlen : l1.length = l2.length := by
    simpa using congrArg List.length hts
  rw [closedTimeMs_eq_spec, closedTimeMs_eq_spec, specClosedTime, specClosedTime, hlen]
  apply List.sum_le_sum
  intro i hi
  rw [List.mem_range] at hi
  by_cases hc : isClosed (earD l1 i) = true
  · rw [if_pos hc, if_pos (hcl i hc), frameDuration_map_eq hts]
  · rw [if_neg hc]
    split
    · exact frameDuration_nonneg l2 hsort i hi
    · exact le_refl 0

/-- Indexing a record list around a distinguished middle element. -/
theorem earD_append_cons (pre post : List EARRecord) (r : EARRecord) (i : ℕ) :
    earD (pre ++ r :: post) i =
      if i < pre.length then earD pre i
      else if i = pre.length then r.ear
      else earD post (i - pre.length - 1) := by
  rw [earD, getD_append_split]
  rcases lt_trichotomy i pre.length with h | h | h
  · rw [if_pos h, if_pos h]
    rfl
  · rw [if_neg (by omega), if_neg (by omega), if_pos h, h, Nat.sub_self,
      List.getD_cons_zero]
  · rw [if_neg (by omega), if_neg (by omega), if_neg (by omega)]
    have : i - pre.length = (i - pre.length - 1) + 1 := by omega
    rw [this, List.getD_cons_succ]
    rfl

/-! ## fatigue-detector.ts: eye-openness geometry over the reals -/

/-- A face-mesh landmark point; the distance computation of
fatigue-detector.ts reads only the x and y coordinates. -/
structure Keypoint where
  x : ℝ
  y : ℝ

/-- distance (fatigue-detector.ts lines 78-86):
Math.sqrt(dx * dx + dy * dy). -/
noncomputable def distance (a b : Keypoint) : ℝ :=
  Real.sqrt ((a.x - b.x) * (a.x - b.x) + (a.y - b.y) * (a.y - b.y))

/-- The six landmark indices of one eye (fatigue-detector.ts lines 32-48). -/
structure EyeIndices where
  p1 : ℕ
  p2 : ℕ
  p3 : ℕ
  p4 : ℕ
  p5 : ℕ
  p6 : ℕ

/-- EYE_LANDMARKS.LEFT (fatigue-detector.ts lines 33-40). -/
def EYE_LANDMARKS_LEFT : EyeIndices := ⟨33, 160, 158, 133, 153, 144⟩

/-- EYE_LANDMARKS.RIGHT (fatigue-detector.ts lines 41-48). -/
def EYE_LANDMARKS_RIGHT : EyeIndices := ⟨362, 385, 387, 263, 373, 380⟩

/-- calculateEAR (fatigue-detector.ts lines 53-73):
(vertical1 + vertical2) / (2 * horizontal) with vertical1 = distance p2 p6,
vertical2 = distance p3 p5, horizontal = distance p1 p4.  The keypoint
array is modelled as a total index function (the spec makes indexability at
every configured index a caller contract). -/
noncomputable def calculateEAR (keypoints : ℕ → Keypoint) (indices : EyeIndices) : ℝ :=
  (distance (keypoints indices.p2) (keypoints indices.p6)
    + distance (keypoints indices.p3) (keypoints indices.p5))
  / (2 * distance (keypoints indices.p1) (keypoints indices.p4))

/-- The per-frame openness value pushed by PERCLOSDetector.update
(perclos-detector.ts lines 41-46): the arithmetic mean of the two eye
ratios. -/
noncomputable def avgEAR (keypoints : ℕ → Keypoint) : ℝ :=
  (calculateEAR keypoints EYE_LANDMARKS_LEFT + calculateEAR keypoints EYE_LANDMARKS_RIGHT) / 2

/-- A concrete symmetric eye shape: corner landmarks 10 apart, both
upper/lower landmark pairs 2 apart. -/
noncomputable def kpSym : ℕ → Keypoint
  | 0 => ⟨0, 0⟩
  | 1 => ⟨3, 1⟩
  | 2 => ⟨7, 1⟩
  | 3 => ⟨10, 0⟩
  | 4 => ⟨7, -1⟩
  | _ => ⟨3, -1⟩

/-- Index assignment for the concrete eye shape. -/
def eyeIdxSym : EyeIndices := ⟨0, 1, 2, 3, 4, 5⟩

/-! ## Claim theorems -/

/-- C10: the under-30-seconds special case in calculatePERCLOS is vacuous:
whenever recent samples exist, calculatePERCLOS equals
calculateClosurePercentage applied to the recent samples and
min(now - startTime, WINDOW_MS), because both branches of the elapsed-time
test make the identical call. -/
theorem C10_branch_equiv (d : PERCLOSDetector) (now : ℤ)
    (h : getRecentEARs d now ≠ []) :
    calculatePERCLOS d now =
      calculateClosurePercentage (getRecentEARs d now)
        (min (now - d.startTime) WINDOW_MS) := by
  rw [calculatePERCLOS, if_neg h]
  split <;> rfl

/-- C10 witness: the branch equivalence evaluated at a concrete one-sample
detector. -/
theorem C10_branch_equiv_witness :
    getRecentEARs (update (mkDetector 0) (JSNum.fin (1/10)) 500) 500 ≠ [] ∧
    calculatePERCLOS (update (mkDetector 0) (JSNum.fin (1/10)) 500) 500 =
      calculateClosurePercentage
        (getRecentEARs (update (mkDetector 0) (JSNum.fin (1/10)) 500) 500)
        (min ((500 : ℤ) - (update (mkDetector 0) (JSNum.fin (1/10)) 500).startTime)
          WINDOW_MS) := by
  have hne : getRecentEARs (update (mkDetector 0) (JSNum.fin (1/10)) 500) 500 ≠ [] := by
    norm_num [getRecentEARs, update, cleanOldData, mkDetector, WINDOW_MS, List.filter,
      List.cons_ne_nil]
  exact ⟨hne, C10_branch_equiv _ 500 hne⟩

/-- C6: with no recent samples at scoring time (in particular with no
prior update at all), getScore yields PERCLOS 0, score 100 and the normal
level, and is total. -/
theorem C6_empty_recent (d : PERCLOSDetector) (now : ℤ)
    (h : getRecentEARs d now = []) :
    calculatePERCLOS d now = JSNum.fin 0 ∧
    getScore d now =
      { score := JSNum.fin 100, level := "正常", detailPerclos := JSNum.fin 0 } := by
  have h1 : calculatePERCLOS d now = JSNum.fin 0 := by
    rw [calculatePERCLOS, if_pos h]
  refine ⟨h1, ?_⟩
  rw [getScore, h1]
  norm_num [scoreLevel, normalScore, jge, jsub, jneg, jadd, jmul, jdiv, jround,
    NORMAL_PERCLOS, FATIGUE_PERCLOS]

/-- C6 witness: a freshly constructed detector (no update call at all)
queried at an arbitrary time. -/
theorem C6_empty_recent_witness :
    getRecentEARs (mkDetector 0) 12345 = [] ∧
    calculatePERCLOS (mkDetector 0) 12345 = JSNum.fin 0 ∧
    getScore (mkDetector 0) 12345 =
      { score := JSNum.fin 100, level := "正常", detailPerclos := JSNum.fin 0 } :=
  ⟨rfl, (C6_empty_recent (mkDetector 0) 12345 rfl).1,
    (C6_empty_recent (mkDetector 0) 12345 rfl).2⟩

/-- C5: after update(ratio, now), every retained sample has timestamp
strictly above now - 2 * WINDOW_MS, every pre-existing or new sample above
that cutoff is retained, and the samples used for scoring are further
restricted to timestamps strictly above (query time) - WINDOW_MS. -/
theorem C5_pruning (d : PERCLOSDetector) (ratio : JSNum) (now : ℤ) (r : EARRecord) :
    (r ∈ (update d ratio now).earHistory → now - WINDOW_MS * 2 < r.timestamp) ∧
    (r ∈ d.earHistory ++ [⟨now, ratio⟩] → now - WINDOW_MS * 2 < r.timestamp →
      r ∈ (update d ratio now).earHistory) ∧
    (∀ q : ℤ, r ∈ getRecentEARs (update d ratio now) q → q - WINDOW_MS < r.timestamp) := by
  refine ⟨?_, ?_, ?_⟩
  · intro hmem
    unfold update cleanOldData at hmem
    rw [List.mem_filter] at hmem
    simpa using hmem.2
  · intro hmem hts
    unfold update cleanOldData
    rw [List.mem_filter]
    exact ⟨hmem, by simpa using hts⟩
  · intro q hmem
    unfold getRecentEARs at hmem
    rw [List.mem_filter] at hmem
    simpa using hmem.2

/-- A detector state holding one prunable and one retainable old sample. -/
def dTwoOld : PERCLOSDetector :=
  { earHistory := [⟨-130000, JSNum.fin (1/10)⟩, ⟨-100000, JSNum.fin (3/10)⟩],
    startTime := -130000, lastUpdateTime := -100000 }

/-- C5 witness: the pruning bounds at a concrete update. -/
theorem C5_pruning_witness :
    ((0 : ℤ) - WINDOW_MS * 2 < -100000) ∧
    ((⟨-100000, JSNum.fin (3/10)⟩ : EARRecord) ∈
      (update dTwoOld (JSNum.fin (1/10)) 0).earHistory) ∧
    ((-90000 : ℤ) - WINDOW_MS < -100000) := by
  have hmem : (⟨-100000, JSNum.fin (3/10)⟩ : EARRecord) ∈
      dTwoOld.earHistory ++ [⟨0, JSNum.fin (1/10)⟩] := by
    norm_num [dTwoOld]
  have hmem2 : (⟨-100000, JSNum.fin (3/10)⟩ : EARRecord) ∈
      (update dTwoOld (JSNum.fin (1/10)) 0).earHistory :=
    (C5_pruning dTwoOld (JSNum.fin (1/10)) 0 ⟨-100000, JSNum.fin (3/10)⟩).2.1 hmem
      (by norm_num [WINDOW_MS])
  have hrec : (⟨-100000, JSNum.fin (3/10)⟩ : EARRecord) ∈
      getRecentEARs (update dTwoOld (JSNum.fin (1/10)) 0) (-90000) := by
    unfold getRecentEARs
    rw [List.mem_filter]
    exact ⟨hmem2, by norm_num [WINDOW_MS]⟩
  exact ⟨(C5_pruning dTwoOld (JSNum.fin (1/10)) 0 ⟨-100000, JSNum.fin (3/10)⟩).1 hmem2,
    hmem2,
    (C5_pruning dTwoOld (JSNum.fin (1/10)) 0 ⟨-100000, JSNum.fin (3/10)⟩).2.2 (-90000) hrec⟩

/-- C2 (counter-evidence): the score mapping is NOT continuous at the
breakpoints.  At p = 15 the normal formula gives 80 but the mild-fatigue
formula (and the branch actually taken) gives 100; at p = 20 the
mild-fatigue formula gives 80 but the fatigue formula (and the branch
actually taken) gives 100; and 100 differs from the claimed common
values. -/
theorem C2_breakpoint_discontinuity :
    normalScore (JSNum.fin 15) = JSNum.fin 80 ∧
    mildScore (JSNum.fin 15) = JSNum.fin 100 ∧
    mildScore (JSNum.fin 20) = JSNum.fin 80 ∧
    fatigueScore (JSNum.fin 20) = JSNum.fin 100 ∧
    (scoreLevel (JSNum.fin 15)).score = JSNum.fin 100 ∧
    (scoreLevel (JSNum.fin 20)).score = JSNum.fin 100 ∧
    JSNum.fin 100 ≠ JSNum.fin 80 ∧
    JSNum.fin 100 ≠ JSNum.fin 60 := by
  norm_num [normalScore, mildScore, fatigueScore, scoreLevel, jge, jsub, jneg, jadd,
    jmul, jmax, jlt, jround, NORMAL_PERCLOS, FATIGUE_PERCLOS]

/-- C9: the score mapping yields exactly 100 at PERCLOS 0, and the
fatigue-branch formula saturates to exactly 0 for every PERCLOS of at
least 45. -/
theorem C9_endpoint_scores :
    (scoreLevel (JSNum.fin 0)).score = JSNum.fin 100 ∧
    (scoreLevel (JSNum.fin 0)).level = "正常" ∧
    (∀ p : ℚ, 45 ≤ p → (scoreLevel (JSNum.fin p)).score = JSNum.fin 0) := by
  refine ⟨?_, ?_, ?_⟩
  · norm_num [scoreLevel, normalScore, jge, jsub, jneg, jadd, jmul, jround,
      NORMAL_PERCLOS, FATIGUE_PERCLOS]
  · norm_num [scoreLevel, jge, NORMAL_PERCLOS, FATIGUE_PERCLOS]
  · intro p hp
    have h20 : FATIGUE_PERCLOS ≤ p := by unfold FATIGUE_PERCLOS; linarith
    rw [scoreLevel, if_pos (by simp [jge_fin, h20])]
    have hmax : max 0 (100 - (p - FATIGUE_PERCLOS) * 4) = 0 :=
      max_eq_left (by unfold FATIGUE_PERCLOS; linarith)
    have hfs : fatigueScore (JSNum.fin p) = JSNum.fin 0 := by
      rw [fatigueScore, jsub_fin, jmul_fin, jsub_fin, jmax_fin, hmax]
    rw [hfs]
    norm_num [jround]

/-- C9 witness: exact saturation at PERCLOS 45. -/
theorem C9_endpoint_scores_witness :
    (45 : ℚ) ≤ 45 ∧ (scoreLevel (JSNum.fin 45)).score = JSNum.fin 0 :=
  ⟨le_refl 45, C9_endpoint_scores.2.2 45 (le_refl 45)⟩

/-- A detector constructed at time 0 holding the single sample
(timestamp 0, ratio 0.1). -/
def dSingleClosed : PERCLOSDetector := update (mkDetector 0) (JSNum.fin (1/10)) 0

/-- C1 counterexample: for the Scorer built at t0 = 0 with the single
below-threshold sample at timestamp 0, getScore at now = 0 divides by the
zero effective window with positive closed time: PERCLOS is +Infinity (not
0) and the result is score 0 with the fatigue level, refuting the claimed
score 100 / normal outcome. -/
theorem C1_zero_window_counterexample :
    calculatePERCLOS dSingleClosed 0 = JSNum.posInf ∧
    getScore dSingleClosed 0 =
      { score := JSNum.fin 0, level := "疲労", detailPerclos := JSNum.posInf } ∧
    ¬((getScore dSingleClosed 0).score = JSNum.fin 100 ∧
      (getScore dSingleClosed 0).level = "正常") := by
  have h1 : calculatePERCLOS dSingleClosed 0 = JSNum.posInf := by
    norm_num [calculatePERCLOS, getRecentEARs, dSingleClosed, update, cleanOldData,
      mkDetector, WINDOW_MS, calculateClosurePercentage, closedTimeMs, frameDuration,
      tsD, earD, isClosed, jlt, jdiv, jmul, EAR_THRESHOLD, List.filter,
      List.range_succ, List.range_zero, List.cons_ne_nil]
  have h2 : getScore dSingleClosed 0 =
      { score := JSNum.fin 0, level := "疲労", detailPerclos := JSNum.posInf } := by
    rw [getScore, h1]
    norm_num [scoreLevel, fatigueScore, jge, jsub, jneg, jadd, jmul, jmax, jlt,
      jround, jdiv, FATIGUE_PERCLOS]
  refine ⟨h1, h2, ?_⟩
  rintro ⟨hs, -⟩
  rw [h2] at hs
  simp at hs

/-- C1 amended: with recent samples present, a zero effective window and
positive accumulated closed time, there is no zero-division guard: PERCLOS
evaluates to +Infinity (no error is raised in the model, which is total)
and getScore returns score 0 with the fatigue level. -/
theorem C1_zero_window_amended (d : PERCLOSDetector) (now : ℤ)
    (h1 : getRecentEARs d now ≠ [])
    (h2 : min (now - d.startTime) WINDOW_MS = 0)
    (h3 : 0 < closedTimeMs (getRecentEARs d now)) :
    calculatePERCLOS d now = JSNum.posInf ∧
    (getScore d now).score = JSNum.fin 0 ∧
    (getScore d now).level = "疲労" := by
  have hc : (0 : ℚ) < ((closedTimeMs (getRecentEARs d now) : ℤ) : ℚ) := by
    exact_mod_cast h3
  have hcc : calculateClosurePercentage (getRecentEARs d now)
      (min (now - d.startTime) WINDOW_MS) = JSNum.posInf := by
    rw [calculateClosurePercentage, if_neg h1, h2]
    norm_num [jdiv, jmul, hc, hc.ne']
  have hp : calculatePERCLOS d now = JSNum.posInf := by
    rw [calculatePERCLOS, if_neg h1]
    split <;> exact hcc
  have hsc : getScore d now =
      { score := JSNum.fin 0, level := "疲労", detailPerclos := JSNum.posInf } := by
    rw [getScore, hp]
    norm_num [scoreLevel, fatigueScore, jge, jsub, jneg, jadd, jmul, jmax, jlt,
      jround, jdiv, FATIGUE_PERCLOS]
  rw [hsc]
  exact ⟨hp, rfl, rfl⟩

/-- C1 witness: the amended behaviour at the single-sample zero-window
scenario. -/
theorem C1_zero_window_witness :
    getRecentEARs dSingleClosed 0 ≠ [] ∧
    min ((0 : ℤ) - dSingleClosed.startTime) WINDOW_MS = 0 ∧
    0 < closedTimeMs (getRecentEARs dSingleClosed 0) ∧
    calculatePERCLOS dSingleClosed 0 = JSNum.posInf ∧
    (getScore dSingleClosed 0).score = JSNum.fin 0 ∧
    (getScore dSingleClosed 0).level = "疲労" := by
  have hne : getRecentEARs dSingleClosed 0 ≠ [] := by
    norm_num [getRecentEARs, dSingleClosed, update, cleanOldData, mkDetector,
      WINDOW_MS, List.filter, List.cons_ne_nil]
  have hmin : min ((0 : ℤ) - dSingleClosed.startTime) WINDOW_MS = 0 := by
    norm_num [dSingleClosed, update, mkDetector, WINDOW_MS]
  have hct : 0 < closedTimeMs (getRecentEARs dSingleClosed 0) := by
    norm_num [closedTimeMs, getRecentEARs, dSingleClosed, update, cleanOldData,
      mkDetector, WINDOW_MS, frameDuration, tsD, earD, isClosed, jlt, EAR_THRESHOLD,
      List.filter, List.range_succ, List.range_zero]
  obtain ⟨ha, hb, hl⟩ := C1_zero_window_amended dSingleClosed 0 hne hmin hct
  exact ⟨hne, hmin, hct, ha, hb, hl⟩

/-- The three-sample trace of the C3 scenario: ratios 0.1, 0.1, 0.3 at
times 0, 1000, 2000. -/
def tripleTrace : List (JSNum × ℤ) :=
  [(JSNum.fin (1/10), 0), (JSNum.fin (1/10), 1000), (JSNum.fin (3/10), 2000)]

/-- The detector reached by the C3 trace from construction at time 0. -/
def dTriple : PERCLOSDetector := runUpdates (mkDetector 0) tripleTrace

/-- C3: frame-duration weighting: closed time is the sum over recent
samples of that sample's frame duration gated on its ratio being below the
threshold, where a non-final sample's duration is the delta to the next
sample, the final sample reuses the delta to the previous sample when one
exists, and a sole sample falls back to 33 ms; consequently the scenario
with samples (0, 0.1), (1000, 0.1), (2000, 0.3) queried at 2000 gives
closed time 2000 ms, PERCLOS 100, score 0 and the fatigue level. -/
theorem C3_duration_weighting :
    (∀ records : List EARRecord, closedTimeMs records = specClosedTime records) ∧
    (∀ (records : List EARRecord) (i : ℕ), i + 1 < records.length →
      frameDuration records i = tsD records (i + 1) - tsD records i) ∧
    (∀ (records : List EARRecord) (i : ℕ), i + 1 = records.length → 0 < i →
      frameDuration records i = tsD records i - tsD records (i - 1)) ∧
    (∀ records : List EARRecord, records.length = 1 → frameDuration records 0 = 33) ∧
    closedTimeMs (getRecentEARs dTriple 2000) = 2000 ∧
    calculatePERCLOS dTriple 2000 = JSNum.fin 100 ∧
    getScore dTriple 2000 =
      { score := JSNum.fin 0, level := "疲労", detailPerclos := JSNum.fin 100 } := by
  have hct : closedTimeMs (getRecentEARs dTriple 2000) = 2000 := by
    norm_num [closedTimeMs, getRecentEARs, dTriple, tripleTrace, runUpdates, update,
      cleanOldData, mkDetector, WINDOW_MS, frameDuration, tsD, earD, isClosed, jlt,
      EAR_THRESHOLD, List.filter, List.range_succ, List.range_zero]
  have hp : calculatePERCLOS dTriple 2000 = JSNum.fin 100 := by
    norm_num [calculatePERCLOS, getRecentEARs, dTriple, tripleTrace, runUpdates,
      update, cleanOldData, mkDetector, WINDOW_MS, calculateClosurePercentage,
      closedTimeMs, frameDuration, tsD, earD, isClosed, jlt, jdiv, jmul,
      EAR_THRESHOLD, List.filter, List.range_succ, List.range_zero, List.cons_ne_nil]
  refine ⟨closedTimeMs_eq_spec, ?_, ?_, ?_, hct, hp, ?_⟩
  · intro records i hi
    rw [frameDuration, if_pos hi]
  · intro records i hi hpos
    rw [frameDuration, if_neg (by omega), if_pos hpos]
  · intro records hlen
    rw [frameDuration, hlen]
    norm_num
  · rw [getScore, hp]
    norm_num [scoreLevel, fatigueScore, jge, jsub, jneg, jadd, jmul, jmax, jlt,
      jround, jdiv, FATIGUE_PERCLOS]

/-- C3 witness: the duration equations instantiated on the scenario
history. -/
theorem C3_duration_weighting_witness :
    frameDuration (getRecentEARs dTriple 2000) 0 = 1000 ∧
    frameDuration (getRecentEARs dTriple 2000) 2 = 1000 ∧
    frameDuration [⟨0, JSNum.fin (1/10)⟩] 0 = 33 := by
  have hrec : getRecentEARs dTriple 2000 =
      [⟨0, JSNum.fin (1/10)⟩, ⟨1000, JSNum.fin (1/10)⟩, ⟨2000, JSNum.fin (3/10)⟩] := by
    norm_num [getRecentEARs, dTriple, tripleTrace, runUpdates, update, cleanOldData,
      mkDetector, WINDOW_MS, List.filter]
  have h1 : frameDuration (getRecentEARs dTriple 2000) 0 =
      tsD (getRecentEARs dTriple 2000) 1 - tsD (getRecentEARs dTriple 2000) 0 :=
    C3_duration_weighting.2.1 (getRecentEARs dTriple 2000) 0 (by rw [hrec]; norm_num)
  have h2 : frameDuration (getRecentEARs dTriple 2000) 2 =
      tsD (getRecentEARs dTriple 2000) 2 - tsD (getRecentEARs dTriple 2000) 1 :=
    C3_duration_weighting.2.2.1 (getRecentEARs dTriple 2000) 2 (by rw [hrec]; rfl) (by norm_num)
  have h3 : frameDuration [⟨0, JSNum.fin (1/10)⟩] 0 = 33 :=
    C3_duration_weighting.2.2.2.1 [⟨0, JSNum.fin (1/10)⟩] rfl
  refine ⟨?_, ?_, h3⟩
  · rw [h1, hrec]; rfl
  · rw [h2, hrec]; rfl

/-- C4 counterexample: an update with an open-eye ratio at the
construction instant, queried at that same instant (a reachable state with
query time equal to the last update time), produces a 0/0 division: the
score is NaN, not an integer in [0, 100]. -/
theorem C4_score_range_counterexample :
    (getScore (update (mkDetector 0) (JSNum.fin (1/2)) 0) 0).score = JSNum.nan ∧
    ¬∃ n : ℤ, (getScore (update (mkDetector 0) (JSNum.fin (1/2)) 0) 0).score =
      JSNum.fin (n : ℚ) ∧ 0 ≤ n ∧ n ≤ 100 := by
  have h : (getScore (update (mkDetector 0) (JSNum.fin (1/2)) 0) 0).score = JSNum.nan := by
    norm_num [getScore, calculatePERCLOS, getRecentEARs, update, cleanOldData,
      mkDetector, WINDOW_MS, calculateClosurePercentage, closedTimeMs, frameDuration,
      tsD, earD, isClosed, jlt, jdiv, jmul, jge, jsub, jneg, jadd, jmax, jround,
      scoreLevel, normalScore, EAR_THRESHOLD, FATIGUE_PERCLOS, NORMAL_PERCLOS,
      List.filter, List.range_succ, List.range_zero, List.cons_ne_nil]
  refine ⟨h, ?_⟩
  rintro ⟨n, hn, -⟩
  rw [h] at hn
  exact JSNum.noConfusion hn

/-- C4 amended: for every reachable state (updates at non-decreasing times
starting no earlier than construction) and query time no earlier than the
last update, PROVIDED the query is strictly later than construction (so
the effective window is positive), the score is a finite integer in
[0, 100]; in particular it never exceeds 100 although the normal branch
has no upper clamp. -/
theorem C4_score_range_amended (t0 now : ℤ) (ups : List (JSNum × ℤ))
    (hvalid : validFrom t0 ups) (hlast : lastTime t0 ups ≤ now) (hnow : t0 < now) :
    ∃ n : ℤ, (getScore (runUpdates (mkDetector t0) ups) now).score = JSNum.fin (n : ℚ) ∧
      0 ≤ n ∧ n ≤ 100 := by
  obtain ⟨hs, hb⟩ := runUpdates_inv ups (mkDetector t0) t0
    (by simp [histSorted, mkDetector]) (by intro r hr; simp [mkDetector] at hr) hvalid
  have hstart : (runUpdates (mkDetector t0) ups).startTime = t0 := by
    rw [runUpdates_startTime]
    rfl
  by_cases hre : getRecentEARs (runUpdates (mkDetector t0) ups) now = []
  · refine ⟨100, ?_, by norm_num, by norm_num⟩
    rw [getScore, calculatePERCLOS, if_pos hre]
    norm_num [scoreLevel, normalScore, jge, jsub, jneg, jadd, jmul, jround,
      NORMAL_PERCLOS, FATIGUE_PERCLOS]
  · have hw : 0 < min (now - (runUpdates (mkDetector t0) ups).startTime) WINDOW_MS := by
      rw [hstart]
      exact lt_min (by omega) (by norm_num [WINDOW_MS])
    have hrs : (getRecentEARs (runUpdates (mkDetector t0) ups) now).Pairwise tsLE := by
      unfold histSorted at hs
      unfold getRecentEARs
      exact hs.filter _
    have hc : 0 ≤ closedTimeMs (getRecentEARs (runUpdates (mkDetector t0) ups) now) :=
      closedTimeMs_nonneg _ hrs
    rw [getScore, calculatePERCLOS_fin _ now hre hw.ne']
    apply scoreLevel_range
    apply mul_nonneg _ (by norm_num)
    apply div_nonneg (by exact_mod_cast hc) (by exact_mod_cast hw.le)

/-- C4 witness: the amended range statement at a concrete one-update
trace. -/
theorem C4_score_range_witness :
    validFrom 0 [(JSNum.fin (1/10), 100)] ∧
    lastTime 0 [(JSNum.fin (1/10), 100)] ≤ 1000 ∧
    (0 : ℤ) < 1000 ∧
    ∃ n : ℤ, (getScore (runUpdates (mkDetector 0) [(JSNum.fin (1/10), 100)]) 1000).score =
      JSNum.fin (n : ℚ) ∧ 0 ≤ n ∧ n ≤ 100 :=
  ⟨by norm_num [validFrom], by norm_num [lastTime], by norm_num,
    C4_score_range_amended 0 1000 [(JSNum.fin (1/10), 100)]
      (by norm_num [validFrom]) (by norm_num [lastTime]) (by norm_num)⟩

/-- C7: a non-finite openness ratio (NaN or +Infinity, the values a
degenerate zero-denominator geometry produces) is treated as eye-open: it
never passes the closure test, and replacing a below-threshold ratio by
such a value can only lower the accumulated closed time (timestamps and
hence frame durations are unchanged), never raise it; the model is total,
so no error is raised. -/
theorem C7_nonfinite_open :
    isClosed JSNum.nan = false ∧
    isClosed JSNum.posInf = false ∧
    (∀ (pre post : List EARRecord) (t : ℤ) (e : JSNum) (q : ℚ),
      e = JSNum.nan ∨ e = JSNum.posInf → q < EAR_THRESHOLD →
      (pre ++ (⟨t, JSNum.fin q⟩ : EARRecord) :: post).Pairwise tsLE →
      closedTimeMs (pre ++ (⟨t, e⟩ : EARRecord) :: post) ≤
        closedTimeMs (pre ++ (⟨t, JSNum.fin q⟩ : EARRecord) :: post)) := by
  refine ⟨rfl, rfl, ?_⟩
  intro pre post t e q he hq hsort
  apply closedTimeMs_le _ _ _ _ hsort
  · simp
  · intro i hi
    rw [earD_append_cons] at hi ⊢
    rcases lt_trichotomy i pre.length with h | h | h
    · rw [if_pos h] at hi ⊢
      exact hi
    · rw [if_neg (by omega), if_pos h] at hi
      rcases he with rfl | rfl <;> simp [isClosed, jlt] at hi
    · rw [if_neg (by omega), if_neg (by omega)] at hi ⊢
      exact hi

/-- C7 witness: a sole NaN sample accumulates no more closed time than a
sole below-threshold sample at the same timestamp. -/
theorem C7_nonfinite_open_witness :
    (JSNum.nan = JSNum.nan ∨ JSNum.nan = JSNum.posInf) ∧
    (1/10 : ℚ) < EAR_THRESHOLD ∧
    (([] : List EARRecord) ++ (⟨0, JSNum.fin (1/10)⟩ : EARRecord) :: []).Pairwise tsLE ∧
    closedTimeMs (([] : List EARRecord) ++ (⟨0, JSNum.nan⟩ : EARRecord) :: []) ≤
      closedTimeMs (([] : List EARRecord) ++ (⟨0, JSNum.fin (1/10)⟩ : EARRecord) :: []) :=
  ⟨Or.inl rfl, by norm_num [EAR_THRESHOLD], List.pairwise_singleton tsLE _,
    C7_nonfinite_open.2.2 [] [] 0 JSNum.nan (1/10) (Or.inl rfl)
      (by norm_num [EAR_THRESHOLD]) (List.pairwise_singleton tsLE _)⟩

/-- C8: the eye-openness estimator returns
(vertical1 + vertical2) / (2 * horizontal) over the Euclidean distances of
the designated landmark pairs, the per-frame openness value is the mean of
the left-eye and right-eye ratios, and for the symmetric eye shape with
horizontal distance 10 and both vertical distances 2 the ratio is exactly
0.2. -/
theorem C8_ear_formula :
    (∀ (kp : ℕ → Keypoint) (idx : EyeIndices),
      calculateEAR kp idx =
        (distance (kp idx.p2) (kp idx.p6) + distance (kp idx.p3) (kp idx.p5))
          / (2 * distance (kp idx.p1) (kp idx.p4))) ∧
    (∀ kp : ℕ → Keypoint,
      avgEAR kp =
        (calculateEAR kp EYE_LANDMARKS_LEFT + calculateEAR kp EYE_LANDMARKS_RIGHT) / 2) ∧
    calculateEAR kpSym eyeIdxSym = 0.2 := by
  refine ⟨fun kp idx => rfl, fun kp => rfl, ?_⟩
  have h4 : Real.sqrt 4 = 2 := by
    rw [show (4 : ℝ) = 2 ^ 2 by norm_num]
    exact Real.sqrt_sq (by norm_num)
  have h100 : Real.sqrt 100 = 10 := by
    rw [show (100 : ℝ) = 10 ^ 2 by norm_num]
    exact Real.sqrt_sq (by norm_num)
  have e0 : kpSym 0 = ⟨0, 0⟩ := rfl
  have e1 : kpSym 1 = ⟨3, 1⟩ := rfl
  have e2 : kpSym 2 = ⟨7, 1⟩ := rfl
  have e3 : kpSym 3 = ⟨10, 0⟩ := rfl
  have e4 : kpSym 4 = ⟨7, -1⟩ := rfl
  have e5 : kpSym 5 = ⟨3, -1⟩ := rfl
  have hv1 : distance (kpSym 1) (kpSym 5) = 2 := by
    rw [e1, e5, distance]
    norm_num [h4]
  have hv2 : distance (kpSym 2) (kpSym 4) = 2 := by
    rw [e2, e4, distance]
    norm_num [h4]
  have hh : distance (kpSym 0) (kpSym 3) = 10 := by
    rw [e0, e3, distance]
    norm_num [h100]
  rw [calculateEAR]
  show (distance (kpSym 1) (kpSym 5) + distance (kpSym 2) (kpSym 4))
      / (2 * distance (kpSym 0) (kpSym 3)) = 0.2
  rw [hv1, hv2, hh]
  norm_num

end SleepyCheckr
